import Mathlib

/-!
Shallow embedding of `src/goclockdiff.go` (higebu/goclockdiff): the ICMP
Timestamp message codec, the outgoing request construction, the local
millisecond-of-day clock sampling, the reply-handling branch of `doPing`,
and the RTT / clock-delta arithmetic.

Modelling conventions: wire bytes are `Nat` (real wire data has values
`< 256`), Go `int` fields are `Int`, Go `uint32` fields are `Nat` (in-range
values are `< 2 ^ 32`), and a Go conversion that truncates is written out
with an explicit `% 2 ^ 32`.  Lean's `/` and `%` on `Int` are euclidean
(nonnegative remainder for a positive modulus), which coincide with Go's
arithmetic right shift (floor division) and with taking the low bits of a
two's-complement value, the only ways the Go source uses them on possibly
negative operands.
-/

namespace Goclockdiff

/-- Go struct `Timestamp` (src/goclockdiff.go:48-54): `ID` and `Seq` are Go
`int` (modelled as `Int`), the three timestamps are `uint32` (modelled as
`Nat`; in-range values are `< 2 ^ 32`). -/
structure Timestamp where
  ID : Int
  Seq : Int
  OriginTimestamp : Nat
  ReceiveTimestamp : Nat
  TransmitTimestamp : Nat
deriving Repr, DecidableEq

/-- Constant `marshalledTimestampLen = 16` (src/goclockdiff.go:56). -/
def marshalledTimestampLen : Nat := 16

/-- Go `byte(x)` on an `int` value `x`: the low 8 bits, i.e. `x` modulo 256
with a nonnegative result (Lean's `%` on `Int` is euclidean). -/
def goByte (x : Int) : Nat := (x % 256).toNat

/-- Go `x >> 8` on an `int`: an arithmetic shift, i.e. floor division by 256
(Lean's `/` on `Int` is euclidean, which is floor division for the positive
divisor 256). -/
def goShr8 (x : Int) : Int := x / 256

/-- Method `(*Timestamp).Marshal` (src/goclockdiff.go:65-77), its ignored
`proto` parameter dropped.  Returns the 16-byte big-endian encoding paired
with the error slot, which the Go code always leaves `nil`
(`return b, nil`): bytes 0-1 are `ID`, bytes 2-3 `Seq`, then the three
32-bit timestamps.  On a `uint32` value `i`, `byte(i >> k)` is
`i / 2 ^ k % 256`. -/
def Timestamp.Marshal (t : Timestamp) : List Nat × Option String :=
  ([goByte (goShr8 t.ID), goByte t.ID,
    goByte (goShr8 t.Seq), goByte t.Seq,
    t.OriginTimestamp / 16777216 % 256, t.OriginTimestamp / 65536 % 256,
    t.OriginTimestamp / 256 % 256, t.OriginTimestamp % 256,
    t.ReceiveTimestamp / 16777216 % 256, t.ReceiveTimestamp / 65536 % 256,
    t.ReceiveTimestamp / 256 % 256, t.ReceiveTimestamp % 256,
    t.TransmitTimestamp / 16777216 % 256, t.TransmitTimestamp / 65536 % 256,
    t.TransmitTimestamp / 256 % 256, t.TransmitTimestamp % 256], none)

/-- Function `ParseTimestamp` (src/goclockdiff.go:79-93): fails when the
body length is not 16, otherwise reads `ID` and `Seq` as big-endian 16-bit
integers and the three timestamps as big-endian 32-bit integers.  Go's `|`
there combines bytes shifted into disjoint bit ranges of a value that fits
the target width, so it is written as `+`. -/
def ParseTimestamp (b : List Nat) : Except String Timestamp :=
  let bodyLen := b.length
  if bodyLen ≠ marshalledTimestampLen then
    Except.error s!"timestamp body length {bodyLen} not equal to 16"
  else
    let parseInt := fun (start : Nat) =>
      b.getD start 0 * 16777216 + b.getD (start + 1) 0 * 65536 +
        b.getD (start + 2) 0 * 256 + b.getD (start + 3) 0
    Except.ok
      { ID := ((b.getD 0 0 * 256 + b.getD 1 0 : Nat) : Int),
        Seq := ((b.getD 2 0 * 256 + b.getD 3 0 : Nat) : Int),
        OriginTimestamp := parseInt 4,
        ReceiveTimestamp := parseInt 8,
        TransmitTimestamp := parseInt 12 }

/-- RTT as computed in `doPing` (src/goclockdiff.go:149-150):
`rtt := int64(math.Abs(float64(remoteReceiveTime - int64(transmitTime) + receivedTime - int64(ts.TransmitTimestamp))))`.
Here `math.Abs` acts on a `float64` holding an integer: the operands are
`uint32` values and a millisecond-of-day `int64`, all far below `2 ^ 53`
in magnitude, where the `float64` round trip is exact, so the line is
integer absolute value. -/
def doPingRTT (transmitTime remoteReceiveTime remoteTransmitTime receivedTime : Int) : Int :=
  ((remoteReceiveTime - transmitTime + receivedTime - remoteTransmitTime).natAbs : Int)

/-- Clock delta as computed in `doPing` (src/goclockdiff.go:151):
`delta := rtt/2 + int64(transmitTime) - remoteReceiveTime`.  Go's `int64`
division truncates toward zero; `rtt` is nonnegative, so Lean's euclidean
`/` agrees with it here. -/
def doPingDelta (transmitTime remoteReceiveTime remoteTransmitTime receivedTime : Int) : Int :=
  doPingRTT transmitTime remoteReceiveTime remoteTransmitTime receivedTime / 2 +
    transmitTime - remoteReceiveTime

/-- Constant `ipv4.ICMPTypeTimestampReply` = 14 (RFC 792). -/
def ICMPTypeTimestampReply : Nat := 14

/-- Constant `ipv4.ICMPTypeTimestamp` = 13 (RFC 792), the request type
`main` configures (src/goclockdiff.go:183). -/
def ICMPTypeTimestamp : Nat := 13

/-- Observable outcome of the reply-handling `switch rm.Type` in `doPing`
(src/goclockdiff.go:142-161).  `success` records the printed reply
timestamps and the computed `rtt` and `delta`; `wrongType` is the `default`
branch's error, which carries the received message and the peer address
(`fmt.Errorf("got %+v from %v; want echo reply", rm, peer)`); `nilDeref` is
the nil-pointer dereference reached when `ParseTimestamp` fails: the
`fmt.Errorf` value built on line 147 is discarded (neither returned nor
assigned), so line 149 reads `ts.ReceiveTimestamp` from the nil
`*Timestamp` and the program panics. -/
inductive ReplyOutcome where
  | success (originTS receiveTS transmitTS : Nat) (rtt delta : Int)
  | wrongType (rmType : Nat) (body : List Nat) (peer : String)
  | nilDeref
deriving Repr, DecidableEq

/-- Reply handling in `doPing` (src/goclockdiff.go:142-161) as a function of
the received message's ICMP type and raw body bytes, the peer address, and
the two local samples `transmitTime` (a `uint32`) and `receivedTime` (an
`int64`).  For a Timestamp Reply the `golang.org/x/net/icmp` parser keeps
the body as raw data, so `rm.Body.Marshal` on line 144 returns the received
body bytes unchanged and its error slot is always `nil`. -/
def handleReply (rmType : Nat) (body : List Nat) (peer : String)
    (transmitTime : Nat) (receivedTime : Int) : ReplyOutcome :=
  if rmType = ICMPTypeTimestampReply then
    match ParseTimestamp body with
    | Except.error _ => ReplyOutcome.nilDeref
    | Except.ok ts =>
        ReplyOutcome.success ts.OriginTimestamp ts.ReceiveTimestamp ts.TransmitTimestamp
          (doPingRTT (transmitTime : Int) (ts.ReceiveTimestamp : Int)
            (ts.TransmitTimestamp : Int) receivedTime)
          (doPingDelta (transmitTime : Int) (ts.ReceiveTimestamp : Int)
            (ts.TransmitTimestamp : Int) receivedTime)
  else ReplyOutcome.wrongType rmType body peer

/-- Milliseconds per day. -/
def msPerDay : Nat := 86400000

/-- Line `today := now.Truncate(24*time.Hour).UnixNano() / 1000000`
(src/goclockdiff.go:108): midnight UTC of the moment `nowNano` (nanoseconds
since the Unix epoch), in milliseconds.  `Truncate` rounds down to a
multiple of 24 hours counted from a reference that is itself a midnight,
so the truncated instant is `nowNano / nsPerDay * nsPerDay` nanoseconds,
and dividing that by 10^6 gives exactly `nowNano / nsPerDay * msPerDay`. -/
def todayOf (nowNano : Nat) : Nat := nowNano / 86400000000000 * msPerDay

/-- Line `transmitTime := uint32(now.UnixNano()/1000000 - today)`
(src/goclockdiff.go:109): the local send-time sample.  The subtraction is
nonnegative (`today` is below `now` in milliseconds) and the `uint32`
conversion takes the value modulo `2 ^ 32`. -/
def transmitTimeOf (sendNano : Nat) : Nat :=
  (sendNano / 1000000 - todayOf sendNano) % 2 ^ 32

/-- Line `receivedTime := time.Now().UnixNano()/1000000 - today`
(src/goclockdiff.go:137): the local receive-time sample, an `int64`.
`today` is the value computed on line 108 at the SEND moment — it is not
recomputed at receive time. -/
def receivedTimeOf (sendNano recvNano : Nat) : Int :=
  ((recvNano / 1000000 : Nat) : Int) - ((todayOf sendNano : Nat) : Int)

/-- Receive-time sample as claim C6 and spec section 9 describe it: a
midnight value "derived at its own sampling moment", i.e. subtracting the
midnight of the RECEIVE moment.  Stated from the spec's words, to compare
against `receivedTimeOf`, which is the source's computation. -/
def receivedTimeSpec (recvNano : Nat) : Int :=
  ((recvNano / 1000000 : Nat) : Int) - ((todayOf recvNano : Nat) : Int)

/-- Go struct `Ping` (src/goclockdiff.go:42-46), its `mtype` field as the
ICMP type number. -/
structure Ping where
  network : String
  address : String
  protocol : Nat
  mtype : Nat
deriving Repr, DecidableEq

/-- Value `p` built in `main` (src/goclockdiff.go:183):
`&Ping{"ip4:icmp", "0.0.0.0", iana.ProtocolICMP, ipv4.ICMPTypeTimestamp}`,
with `iana.ProtocolICMP = 1`. -/
def mainPing : Ping := ⟨"ip4:icmp", "0.0.0.0", 1, ICMPTypeTimestamp⟩

/-- Header fields and `Timestamp` body of the outgoing `icmp.Message` (the
Go field named `Type` is written `MsgType`, `Type` being a Lean keyword). -/
structure IcmpMessage where
  MsgType : Nat
  Code : Nat
  Body : Timestamp
deriving Repr, DecidableEq

/-- Go `1 << uint(seq)` on a 64-bit `int`: the low 64 bits of the shift,
read as two's complement (`main` passes `seq = 0`, giving 1). -/
def goShl1 (seq : Nat) : Int :=
  let v : Nat := (1 <<< seq) % 2 ^ 64
  if v < 2 ^ 63 then (v : Int) else (v : Int) - 2 ^ 64

/-- Request message `wm` built in `doPing` (src/goclockdiff.go:110-117):
type `tt.mtype`, code 0, body with `ID: os.Getpid() & 0xffff` (a pid is
nonnegative, modelled as `Nat`), `Seq: 1 << uint(seq)`,
`OriginTimestamp: transmitTime`, and the `ReceiveTimestamp` and
`TransmitTimestamp` fields left zero-valued. -/
def buildRequest (tt : Ping) (pid : Nat) (seq : Nat) (transmitTime : Nat) : IcmpMessage :=
  { MsgType := tt.mtype, Code := 0,
    Body := { ID := ((pid &&& 65535 : Nat) : Int), Seq := goShl1 seq,
              OriginTimestamp := transmitTime,
              ReceiveTimestamp := 0, TransmitTimestamp := 0 } }

/-- Modelled from the spec: the ICMP envelope marshalling
(`icmp.Message.Marshal`, called at src/goclockdiff.go:119) lives in the
external `golang.org/x/net/icmp` package, not in this repository's files.
Spec section 6 gives the normative wire format as "ICMP header (type=13
request / 14 reply, code=0, checksum, then body)": one byte of type, one
byte of code, the two checksum bytes, then the marshalled body. -/
def icmpEnvelope (mtype code checksumHi checksumLo : Nat) (body : List Nat) : List Nat :=
  mtype :: code :: checksumHi :: checksumLo :: body

/-- Reconstruction of a 32-bit big-endian field from the four bytes
`Marshal` produces for it. -/
theorem parse32 (i : Nat) (h : i < 2 ^ 32) :
    (i / 16777216 % 256) * 16777216 + (i / 65536 % 256) * 65536 +
      (i / 256 % 256) * 256 + i % 256 = i := by
  omega

/-- Reconstruction of a 16-bit big-endian field from the two bytes `Marshal`
produces for an in-range `int` value. -/
theorem parse16Int (x : Int) (h0 : 0 ≤ x) (h1 : x < 65536) :
    ((goByte (goShr8 x) * 256 + goByte x : Nat) : Int) = x := by
  unfold goByte goShr8
  omega

/-- Computation of `ParseTimestamp` on a marshalled body, with every field
reconstruction left unsimplified. -/
theorem ParseTimestamp_Marshal (id seq : Int) (o r tr : Nat) :
    ParseTimestamp (Timestamp.Marshal ⟨id, seq, o, r, tr⟩).1 =
      Except.ok
        ⟨((goByte (goShr8 id) * 256 + goByte id : Nat) : Int),
         ((goByte (goShr8 seq) * 256 + goByte seq : Nat) : Int),
         (o / 16777216 % 256) * 16777216 + (o / 65536 % 256) * 65536 +
           (o / 256 % 256) * 256 + o % 256,
         (r / 16777216 % 256) * 16777216 + (r / 65536 % 256) * 65536 +
           (r / 256 % 256) * 256 + r % 256,
         (tr / 16777216 % 256) * 16777216 + (tr / 65536 % 256) * 65536 +
           (tr / 256 % 256) * 256 + tr % 256⟩ :=
  rfl

/-- C1: for every `Timestamp` whose `ID` and `Seq` lie in `[0, 2^16-1]` and
whose three timestamp fields lie in `[0, 2^32-1]`, parsing the 16-byte
marshalled encoding returns the original message in all five fields. -/
theorem C1_marshal_parse_roundtrip (t : Timestamp)
    (hid0 : 0 ≤ t.ID) (hid : t.ID < 65536)
    (hseq0 : 0 ≤ t.Seq) (hseq : t.Seq < 65536)
    (ho : t.OriginTimestamp < 2 ^ 32) (hr : t.ReceiveTimestamp < 2 ^ 32)
    (htr : t.TransmitTimestamp < 2 ^ 32) :
    ParseTimestamp (Timestamp.Marshal t).1 = Except.ok t := by
  obtain ⟨id, seq, o, r, tr⟩ := t
  rw [ParseTimestamp_Marshal]
  simp only [Except.ok.injEq, Timestamp.mk.injEq]
  exact ⟨parse16Int id hid0 hid, parse16Int seq hseq0 hseq,
    parse32 o ho, parse32 r hr, parse32 tr htr⟩

/-- C1 witness: the round trip at a concrete in-range message. -/
theorem C1_witness :
    ParseTimestamp (Timestamp.Marshal ⟨4660, 22136, 305419896, 2596069104, 4294967295⟩).1 =
      Except.ok ⟨4660, 22136, 305419896, 2596069104, 4294967295⟩ :=
  C1_marshal_parse_roundtrip ⟨4660, 22136, 305419896, 2596069104, 4294967295⟩
    (by decide) (by decide) (by decide) (by decide) (by decide) (by decide) (by decide)

/-- C2: the computed round-trip time equals the absolute value of
`(T2 - T1) + (T4 - T3)` and the computed clock delta equals
`RTT/2 + T1 - T2`; in particular, for `T1=1000, T2=1010, T3=1020, T4=1040`
the results are `RTT = 30` and `ClockDelta = 5`. -/
theorem C2_rtt_delta_formulas :
    (∀ T1 T2 T3 T4 : Int,
        doPingRTT T1 T2 T3 T4 = (((T2 - T1) + (T4 - T3)).natAbs : Int) ∧
        doPingDelta T1 T2 T3 T4 = doPingRTT T1 T2 T3 T4 / 2 + T1 - T2) ∧
    doPingRTT 1000 1010 1020 1040 = 30 ∧ doPingDelta 1000 1010 1020 1040 = 5 := by
  refine ⟨fun T1 T2 T3 T4 => ⟨?_, rfl⟩, by decide, by decide⟩
  have h : T2 - T1 + T4 - T3 = (T2 - T1) + (T4 - T3) := by ring
  simp [doPingRTT, h]

/-- C3: the reply handler's outcome on a Timestamp Reply whose 15-byte body
fails `ParseTimestamp` is the nil-pointer dereference, not a reported decode
error — the `fmt.Errorf` value on src/goclockdiff.go:147 is discarded and
line 149 dereferences the nil `*Timestamp`. -/
theorem C3_decode_failure_nil_deref :
    handleReply ICMPTypeTimestampReply (List.replicate 15 0) "192.0.2.1" 0 0 =
      ReplyOutcome.nilDeref :=
  rfl

/-- C4: `Marshal` always produces exactly 16 bytes with a `nil` error, and
`ParseTimestamp` succeeds exactly on the inputs of length 16 (so it fails on
every other length, 0, 15 and 17 included). -/
theorem C4_codec_totality :
    (∀ t : Timestamp,
        (Timestamp.Marshal t).1.length = 16 ∧ (Timestamp.Marshal t).2 = none) ∧
    ∀ b : List Nat, (ParseTimestamp b).toOption.isSome = true ↔ b.length = 16 := by
  refine ⟨fun t => ⟨rfl, rfl⟩, fun b => ?_⟩
  by_cases h : b.length = 16 <;>
    simp [ParseTimestamp, marshalledTimestampLen, h, Except.toOption]

/-- C5 counterexample: the complete encoded request for a concrete message
is not 24 bytes long. -/
theorem C5_counterexample :
    (icmpEnvelope ICMPTypeTimestamp 0 0 0 ((Timestamp.Marshal ⟨1234, 1, 0, 0, 0⟩).1)).length ≠ 24 := by
  decide

/-- C5 amended: the complete encoded ICMP Timestamp Request is 20 bytes —
the 4-byte ICMP header (type, code, checksum) followed by the 16-byte body,
which itself already contains the identifier and sequence fields. -/
theorem C5_message_length (t : Timestamp) (checksumHi checksumLo : Nat) :
    (icmpEnvelope ICMPTypeTimestamp 0 checksumHi checksumLo ((Timestamp.Marshal t).1)).length = 20 :=
  rfl

/-- C6 counterexample: for a send 1 ms before a UTC midnight and a receive
1 ms after it, the source's local receive sample (send-time midnight
reference) differs from the claim's receive sample (receive-time midnight
reference). -/
theorem C6_counterexample :
    receivedTimeOf 86399999000000 86400001000000 ≠ receivedTimeSpec 86400001000000 := by
  decide

/-- C6 amended: the midnight reference is derived once, at send time, and
shared by both local samples — the local receive sample subtracts the
send-time midnight, not one derived at its own sampling moment.  With the
shared reference the send sample never wraps modulo `2 ^ 32`, and the
difference of the two local samples equals the true elapsed milliseconds
even when the exchange straddles UTC midnight. -/
theorem C6_shared_midnight_reference (sendNano recvNano : Nat) :
    (transmitTimeOf sendNano : Int) =
        ((sendNano / 1000000 : Nat) : Int) - ((todayOf sendNano : Nat) : Int) ∧
    receivedTimeOf sendNano recvNano - (transmitTimeOf sendNano : Int) =
      ((recvNano / 1000000 : Nat) : Int) - ((sendNano / 1000000 : Nat) : Int) := by
  unfold transmitTimeOf receivedTimeOf todayOf msPerDay
  constructor <;> omega

/-- C7: every outgoing request built with the configuration `main` uses has
ICMP type 13 (Timestamp Request), code 0, `OriginTimestamp` equal to the
send-time clock sample and both other timestamps zero. -/
theorem C7_request_fields (pid seq sendNano : Nat) :
    (buildRequest mainPing pid seq (transmitTimeOf sendNano)).MsgType = 13 ∧
    (buildRequest mainPing pid seq (transmitTimeOf sendNano)).Code = 0 ∧
    (buildRequest mainPing pid seq (transmitTimeOf sendNano)).Body.OriginTimestamp =
      transmitTimeOf sendNano ∧
    (buildRequest mainPing pid seq (transmitTimeOf sendNano)).Body.ReceiveTimestamp = 0 ∧
    (buildRequest mainPing pid seq (transmitTimeOf sendNano)).Body.TransmitTimestamp = 0 :=
  ⟨rfl, rfl, rfl, rfl, rfl⟩

/-- C8: a received message of any type other than Timestamp Reply makes the
exchange fail with the wrong-reply-type error carrying the received message
and the peer address, and never produces a success result. -/
theorem C8_wrong_type_error (rmType : Nat) (body : List Nat) (peer : String)
    (transmitTime : Nat) (receivedTime : Int) (h : rmType ≠ ICMPTypeTimestampReply) :
    handleReply rmType body peer transmitTime receivedTime =
        ReplyOutcome.wrongType rmType body peer ∧
    ∀ originTS receiveTS transmitTS rtt delta,
      handleReply rmType body peer transmitTime receivedTime ≠
        ReplyOutcome.success originTS receiveTS transmitTS rtt delta := by
  constructor
  · simp [handleReply, h]
  · intro originTS receiveTS transmitTS rtt delta
    simp [handleReply, h]

/-- C8 witness: an Echo Reply (ICMP type 0) yields the wrong-reply-type
error carrying the message and the peer. -/
theorem C8_witness :
    handleReply 0 [1, 2, 3] "198.51.100.9" 7 9 =
      ReplyOutcome.wrongType 0 [1, 2, 3] "198.51.100.9" :=
  (C8_wrong_type_error 0 [1, 2, 3] "198.51.100.9" 7 9 (by decide)).1

/-- C9: the computed round-trip time is nonnegative for all four timestamp
inputs. -/
theorem C9_rtt_nonneg (transmitTime remoteReceiveTime remoteTransmitTime receivedTime : Int) :
    0 ≤ doPingRTT transmitTime remoteReceiveTime remoteTransmitTime receivedTime :=
  Int.natCast_nonneg _

/-- C10 counterexample: a datagram of type Timestamp Reply whose body is 10
bytes does not make the exchange succeed — it reaches the nil-pointer
dereference instead. -/
theorem C10_counterexample :
    handleReply ICMPTypeTimestampReply (List.replicate 10 0) "203.0.113.5" 0 0 =
        ReplyOutcome.nilDeref ∧
    ∀ originTS receiveTS transmitTS rtt delta,
      handleReply ICMPTypeTimestampReply (List.replicate 10 0) "203.0.113.5" 0 0 ≠
        ReplyOutcome.success originTS receiveTS transmitTS rtt delta := by
  refine ⟨rfl, fun originTS receiveTS transmitTS rtt delta h => ?_⟩
  have h0 : handleReply ICMPTypeTimestampReply (List.replicate 10 0) "203.0.113.5" 0 0 =
      ReplyOutcome.nilDeref := rfl
  rw [h0] at h
  exact ReplyOutcome.noConfusion h

/-- C10 amended: a received message is accepted on its ICMP type alone
provided its body is 16 bytes: for every Timestamp Reply carrying a 16-byte
body, the exchange succeeds and the computed RTT and delta depend only on
the reply's receive and transmit timestamps and the two local samples —
the identifier, sequence number, originate timestamp and peer address are
never checked against the request. -/
theorem C10_accept_on_type_only (id seq : Int) (o r tr : Nat)
    (ho : o < 2 ^ 32) (hr : r < 2 ^ 32) (htr : tr < 2 ^ 32)
    (peer : String) (transmitTime : Nat) (receivedTime : Int) :
    handleReply ICMPTypeTimestampReply ((Timestamp.Marshal ⟨id, seq, o, r, tr⟩).1)
        peer transmitTime receivedTime =
      ReplyOutcome.success o r tr
        (doPingRTT (transmitTime : Int) (r : Int) (tr : Int) receivedTime)
        (doPingDelta (transmitTime : Int) (r : Int) (tr : Int) receivedTime) := by
  have hp : ParseTimestamp (Timestamp.Marshal ⟨id, seq, o, r, tr⟩).1 =
      Except.ok
        ⟨((goByte (goShr8 id) * 256 + goByte id : Nat) : Int),
         ((goByte (goShr8 seq) * 256 + goByte seq : Nat) : Int), o, r, tr⟩ := by
    rw [ParseTimestamp_Marshal]
    simp only [Except.ok.injEq, Timestamp.mk.injEq]
    exact ⟨trivial, trivial, parse32 o ho, parse32 r hr, parse32 tr htr⟩
  simp [handleReply, hp]

/-- C10 witness: a reply whose identifier is out of 16-bit range as a Go
`int` and whose sequence is negative, from an arbitrary peer, is still
accepted, with the results determined by the receive and transmit
timestamps and the local samples alone. -/
theorem C10_witness :
    handleReply ICMPTypeTimestampReply ((Timestamp.Marshal ⟨70000, -3, 123, 50, 60⟩).1)
        "10.0.0.1" 40 80 =
      ReplyOutcome.success 123 50 60 (doPingRTT 40 50 60 80) (doPingDelta 40 50 60 80) :=
  C10_accept_on_type_only 70000 (-3) 123 50 60 (by decide) (by decide) (by decide)
    "10.0.0.1" 40 80

end Goclockdiff
